import Mathlib

/-!
Shallow embedding of the `remounter` daemon (src/main.rs, src/remounter.rs).

The program polls a resolved endpoint; on a Down-to-Up edge it remounts a
fixed list of SMB shares and optionally runs a post-mount script.  External
effects (filesystem existence checks, shell invocations, name resolution,
signal delivery, probe outcomes) are modelled as explicit inputs, so every
function below is a deterministic function of the code's state plus that
environment.
-/

deriving instance DecidableEq for Except

namespace Remount

/-- Environment snapshot for one share during one remount attempt: whether the
local mount path already exists on disk, whether the path converts to UTF-8
(`to_str`), whether the `sh` process for the mount command can be spawned at
all, and whether the mount command exits successfully. -/
structure ShareEnv where
  pathExists : Bool
  pathValidUtf8 : Bool
  spawnOk : Bool
  mountSucceeds : Bool
deriving DecidableEq, Repr

/-- The distinct error causes `Remounter::remount` can produce, one per
`Err`/`?` exit point of the Rust function. -/
inductive RemountError where
  | shareExists
  | invalidPath
  | spawnFailed
  | mountFailed
deriving DecidableEq, Repr

/-- `Remounter::remount` on one share, paired with whether the external mount
command was invoked (the `Command::new("sh")` for the mount line ran).
Mirrors remounter.rs lines 146-176: an existing path returns `Err` before any
mount invocation; a non-UTF-8 path returns `Err`; a spawn failure propagates
via `?`; a non-success exit status returns `Err`; otherwise `Ok(())`. -/
def remountRun (e : ShareEnv) : Except RemountError Unit × Bool :=
  if e.pathExists then (Except.error RemountError.shareExists, false)
  else if e.pathValidUtf8 = false then (Except.error RemountError.invalidPath, false)
  else if e.spawnOk = false then (Except.error RemountError.spawnFailed, true)
  else if e.mountSucceeds = false then (Except.error RemountError.mountFailed, true)
  else (Except.ok (), true)

/-- The result component of `Remounter::remount`. -/
def remount (e : ShareEnv) : Except RemountError Unit :=
  (remountRun e).1

/-- Whether `Remounter::remount` invoked the external mount command. -/
def mountInvoked (e : ShareEnv) : Bool :=
  (remountRun e).2

/-- The `.err()` projection used by `remount_shares`'s `filter_map`. -/
def errOf : Except RemountError Unit → Option RemountError
  | Except.error e => some e
  | Except.ok _ => none

/-- The error list `remount_shares` collects: one entry per share whose
`remount` returned `Err`, in share order (remounter.rs lines 182-186).
Each collected error is also individually logged. -/
def remountErrors (shares : List ShareEnv) : List RemountError :=
  shares.filterMap (fun s => errOf (remount s))

/-- `Remounter::remount_shares`: runs `remount` on every share, collects the
errors, and fails iff the error list is nonempty (remounter.rs lines 180-198). -/
def remount_shares (shares : List ShareEnv) : Except String Unit :=
  if remountErrors shares = [] then Except.ok ()
  else Except.error "One or more shares failed to remount"

/-- Environment for one iteration of the `check_connection` loop: the shutdown
flag value read at the top of the iteration, the probe outcome of `is_up`, the
per-share environment seen by a remount pass started this iteration, and the
behaviour of the post-mount hook invocation (spawnable, and its exit status). -/
structure IterInput where
  term : Bool
  isUp : Bool
  shares : List ShareEnv
  hookSpawnOk : Bool
  hookExitOk : Bool
deriving DecidableEq, Repr

/-- Observable outcome of one loop iteration: the latched `was_up` after the
iteration, whether a remount pass was triggered, whether that pass succeeded,
whether the post-mount hook was invoked, and whether a fatal error is
propagating out of `check_connection` (hook spawn failure via `?`). -/
structure StepResult where
  was_up : Bool
  passTriggered : Bool
  passSucceeded : Bool
  hookInvoked : Bool
  fatal : Bool
deriving DecidableEq, Repr

/-- One iteration of the `check_connection` loop body (remounter.rs lines
89-137), after the shutdown check has already been passed: on an Up probe with
`was_up` false, set `was_up` true and run a remount pass; on pass failure,
`continue` without the hook; on pass success run the hook when configured (a
spawn failure of the hook's `sh` propagates via `?`; a non-zero exit is only
logged).  A stable Up poll does nothing; a Down poll latches `was_up` false. -/
def checkStep (hasHook : Bool) (was_up : Bool) (inp : IterInput) : StepResult :=
  if inp.isUp then
    if was_up then
      { was_up := true, passTriggered := false, passSucceeded := false,
        hookInvoked := false, fatal := false }
    else
      match remount_shares inp.shares with
      | Except.error _ =>
        { was_up := true, passTriggered := true, passSucceeded := false,
          hookInvoked := false, fatal := false }
      | Except.ok _ =>
        if hasHook then
          { was_up := true, passTriggered := true, passSucceeded := true,
            hookInvoked := true, fatal := !inp.hookSpawnOk }
        else
          { was_up := true, passTriggered := true, passSucceeded := true,
            hookInvoked := false, fatal := false }
  else
    { was_up := false, passTriggered := false, passSucceeded := false,
      hookInvoked := false, fatal := false }

/-- How the modelled loop ends: `normal` when the shutdown flag was observed
(`check_connection` returns `Ok(())`), `fatalError` when an error propagated
out via `?`, `fuelOut` when the supplied environment trace ran out while the
real loop would still be running. -/
inductive LoopExit where
  | normal
  | fatalError
  | fuelOut
deriving DecidableEq, Repr

/-- The `while !term ...` loop of `check_connection`: each supplied iteration
environment is consumed in order; the shutdown flag is checked at the top of
every iteration and, once observed true, the loop exits normally with no
further probe.  A fatal step ends the loop with a propagating error. -/
def loopRun (hasHook : Bool) (was_up : Bool) : List IterInput → List StepResult × LoopExit
  | [] => ([], LoopExit.fuelOut)
  | inp :: rest =>
    if inp.term then ([], LoopExit.normal)
    else if (checkStep hasHook was_up inp).fatal then
      ([checkStep hasHook was_up inp], LoopExit.fatalError)
    else
      (checkStep hasHook was_up inp ::
        (loopRun hasHook (checkStep hasHook was_up inp).was_up rest).1,
       (loopRun hasHook (checkStep hasHook was_up inp).was_up rest).2)

/-- `Remounter::check_connection`: the loop starts with `was_up = false`
(remounter.rs line 86). -/
def check_connection (hasHook : Bool) (inputs : List IterInput) :
    List StepResult × LoopExit :=
  loopRun hasHook false inputs

/-- A resolved network endpoint (address plus port), standing in for
`std::net::SocketAddr`. -/
structure Addr where
  ip : Nat
  port : Nat
deriving DecidableEq, Repr

/-- The fixed SMB service port baked into `new_remounter`. -/
def service_port : Nat := 445

/-- The `Remounter` struct: hostname, the single resolved endpoint, the share
paths, and the optional post-mount script. -/
structure Remounter where
  server : String
  socket_address : Addr
  smb_shares : List String
  post_mount_script : Option String
deriving DecidableEq, Repr

/-- `new_remounter` (remounter.rs lines 29-57): formats `"{server}:445"`,
resolves it (`to_socket_addrs` may fail, modelled by the resolver returning
`Except.error ()`), takes the first resolved address, and fails when there is
none.  The resolver is the platform name-resolution collaborator, passed in as
a function. -/
def new_remounter (resolve : String → Except Unit (List Addr)) (server : String)
    (smb_shares : List String) (post_mount_script : Option String) :
    Except Unit Remounter :=
  match resolve (server ++ ":" ++ toString service_port) with
  | Except.error _ => Except.error ()
  | Except.ok [] => Except.error ()
  | Except.ok (a :: _) =>
    Except.ok { server := server, socket_address := a,
                smb_shares := smb_shares, post_mount_script := post_mount_script }

/-- Exit status of the modelled process for each loop outcome: a clean
shutdown exits 0; an error from `run` makes `main` call
`std::process::exit(1)`; `none` when the environment trace ran out. -/
def exitCodeOf : LoopExit → Option Nat
  | LoopExit.normal => some 0
  | LoopExit.fatalError => some 1
  | LoopExit.fuelOut => none

/-- Observable outcome of `main`: the process exit status (`none` while still
running) and the number of poll iterations the loop performed. -/
structure MainResult where
  exitCode : Option Nat
  probes : Nat
deriving DecidableEq, Repr

/-- `main` (main.rs lines 59-77): build the remounter; on a construction error
exit 1 before any polling; otherwise run `check_connection` and exit 0 on a
clean shutdown or 1 on a propagated run-time error. -/
def mainModel (resolve : String → Except Unit (List Addr)) (server : String)
    (smb_shares : List String) (post_mount_script : Option String)
    (inputs : List IterInput) : MainResult :=
  match new_remounter resolve server smb_shares post_mount_script with
  | Except.error _ => { exitCode := some 1, probes := 0 }
  | Except.ok rem =>
    let p := check_connection rem.post_mount_script.isSome inputs
    { exitCode := exitCodeOf p.2, probes := p.1.length }

/-- Projection of a probe sequence to the pass-trigger flags of the loop: with
previous latched state `w`, a pass is triggered exactly on `Up` probes whose
predecessor state was `Down`. -/
def passFlags (w : Bool) : List Bool → List Bool
  | [] => []
  | p :: ps => (p && !w) :: passFlags p ps

/-- A share whose local mount path already exists on disk. -/
def envExisting : ShareEnv :=
  { pathExists := true, pathValidUtf8 := true, spawnOk := true, mountSucceeds := true }

/-- A share that mounts successfully. -/
def envMountOk : ShareEnv :=
  { pathExists := false, pathValidUtf8 := true, spawnOk := true, mountSucceeds := true }

/-- A share whose mount command fails. -/
def envMountFail : ShareEnv :=
  { pathExists := false, pathValidUtf8 := true, spawnOk := true, mountSucceeds := false }

/-- An iteration with an Up probe whose remount pass succeeds. -/
def iterUpOk : IterInput :=
  { term := false, isUp := true, shares := [envMountOk], hookSpawnOk := true,
    hookExitOk := true }

/-- An iteration with an Up probe whose remount pass fails. -/
def iterUpFail : IterInput :=
  { term := false, isUp := true, shares := [envMountFail], hookSpawnOk := true,
    hookExitOk := true }

/-- An iteration with an Up probe, a successful pass, and a hook whose `sh`
cannot be spawned. -/
def iterUpSpawnFail : IterInput :=
  { term := false, isUp := true, shares := [envMountOk], hookSpawnOk := false,
    hookExitOk := true }

/-- An iteration with an Up probe, a successful pass, and a hook that runs but
exits non-zero. -/
def iterUpHookExitBad : IterInput :=
  { term := false, isUp := true, shares := [envMountOk], hookSpawnOk := true,
    hookExitOk := false }

/-- An iteration with a Down probe. -/
def iterDown : IterInput :=
  { term := false, isUp := false, shares := [], hookSpawnOk := true,
    hookExitOk := true }

/-- An iteration at whose start the shutdown flag reads true. -/
def iterTerm : IterInput :=
  { term := true, isUp := true, shares := [envMountOk], hookSpawnOk := true,
    hookExitOk := true }

/-- A resolver that fails (name resolution error). -/
def resolveFail : String → Except Unit (List Addr) :=
  fun _ => Except.error ()

/-- A resolver that returns two candidate addresses. -/
def resolveTwo : String → Except Unit (List Addr) :=
  fun _ => Except.ok [{ ip := 1, port := 445 }, { ip := 2, port := 445 }]

/-- A default step result, used only to state closed instantiations. -/
def stepDefault : StepResult :=
  { was_up := false, passTriggered := false, passSucceeded := false,
    hookInvoked := false, fatal := false }

theorem checkStep_was_up (h w : Bool) (inp : IterInput) :
    (checkStep h w inp).was_up = inp.isUp := by
  cases hU : inp.isUp <;> cases w <;> simp [checkStep, hU] <;>
    rcases hR : remount_shares inp.shares with e | u <;> simp [hR] <;>
    cases h <;> simp

theorem checkStep_passTriggered (h w : Bool) (inp : IterInput) :
    (checkStep h w inp).passTriggered = (inp.isUp && !w) := by
  cases hU : inp.isUp <;> cases w <;> simp [checkStep, hU] <;>
    rcases hR : remount_shares inp.shares with e | u <;> simp [hR] <;>
    cases h <;> simp

theorem checkStep_fatal_of_spawnOk (h w : Bool) (inp : IterInput)
    (hs : inp.hookSpawnOk = true) : (checkStep h w inp).fatal = false := by
  cases hU : inp.isUp <;> cases w <;> simp [checkStep, hU] <;>
    rcases hR : remount_shares inp.shares with e | u <;> simp [hR, hs] <;>
    cases h <;> simp [hs]

theorem checkStep_hookInvoked_iff (h w : Bool) (inp : IterInput) :
    (checkStep h w inp).hookInvoked = true ↔
      (checkStep h w inp).passTriggered = true ∧
        remount_shares inp.shares = Except.ok () ∧ h = true := by
  cases hU : inp.isUp <;> cases w <;> simp [checkStep, hU] <;>
    rcases hR : remount_shares inp.shares with e | u <;>
    simp [hR] <;> cases h <;> simp

theorem checkStep_hook_imp_pass (h w : Bool) (inp : IterInput)
    (hk : (checkStep h w inp).hookInvoked = true) :
    (checkStep h w inp).passTriggered = true :=
  ((checkStep_hookInvoked_iff h w inp).mp hk).1

theorem remountErrors_eq_nil (shares : List ShareEnv) :
    remountErrors shares = [] ↔ ∀ s ∈ shares, remount s = Except.ok () := by
  induction shares with
  | nil => simp [remountErrors]
  | cons x xs ih =>
    rcases hR : remount x with e | u
    · simp [remountErrors, List.filterMap_cons, errOf, hR]
    · cases u
      simp only [remountErrors, List.filterMap_cons, errOf, hR] at ih ⊢
      simp [hR, ih]

theorem remount_shares_ok_iff (shares : List ShareEnv) :
    remount_shares shares = Except.ok () ↔ remountErrors shares = [] := by
  unfold remount_shares
  rcases hE : remountErrors shares with _ | ⟨e, es⟩ <;> simp

theorem loopRun_length (h : Bool) (inputs : List IterInput) :
    ∀ w : Bool, (∀ x ∈ inputs, x.term = false) →
      (∀ x ∈ inputs, x.hookSpawnOk = true) →
      (loopRun h w inputs).1.length = inputs.length := by
  induction inputs with
  | nil => intro w _ _; simp [loopRun]
  | cons x xs ih =>
    intro w hterm hspawn
    have hx : x.term = false := hterm x (List.mem_cons_self x xs)
    have hsx : x.hookSpawnOk = true := hspawn x (List.mem_cons_self x xs)
    have hfatal := checkStep_fatal_of_spawnOk h w x hsx
    simp [loopRun, hx, hfatal,
      ih (checkStep h w x).was_up
        (fun y hy => hterm y (List.mem_cons_of_mem x hy))
        (fun y hy => hspawn y (List.mem_cons_of_mem x hy))]

theorem loopRun_passMap (h : Bool) (inputs : List IterInput) :
    ∀ w : Bool, (∀ x ∈ inputs, x.term = false) →
      (∀ x ∈ inputs, x.hookSpawnOk = true) →
      (loopRun h w inputs).1.map StepResult.passTriggered =
        passFlags w (inputs.map IterInput.isUp) := by
  induction inputs with
  | nil => intro w _ _; simp [loopRun, passFlags]
  | cons x xs ih =>
    intro w hterm hspawn
    have hx : x.term = false := hterm x (List.mem_cons_self x xs)
    have hsx : x.hookSpawnOk = true := hspawn x (List.mem_cons_self x xs)
    have hfatal := checkStep_fatal_of_spawnOk h w x hsx
    have hwup := checkStep_was_up h w x
    simp [loopRun, hx, hfatal, passFlags, checkStep_passTriggered, hwup,
      ih x.isUp
        (fun y hy => hterm y (List.mem_cons_of_mem x hy))
        (fun y hy => hspawn y (List.mem_cons_of_mem x hy))]

theorem loopRun_up_noPass (h : Bool) (inputs : List IterInput) :
    (∀ x ∈ inputs, x.isUp = true) →
      ∀ r ∈ (loopRun h true inputs).1, r.passTriggered = false := by
  induction inputs with
  | nil => intro _ r hr; simp [loopRun] at hr
  | cons x xs ih =>
    intro hall r hr
    have hx : x.isUp = true := hall x (List.mem_cons_self x xs)
    have hstep : checkStep h true x =
        { was_up := true, passTriggered := false, passSucceeded := false,
          hookInvoked := false, fatal := false } := by
      simp [checkStep, hx]
    by_cases ht : x.term = true
    · simp [loopRun, ht] at hr
    · have ht' : x.term = false := by simpa using ht
      simp only [loopRun, ht', if_false, hstep] at hr
      simp at hr
      rcases hr with rfl | hr
      · rfl
      · exact ih (fun y hy => hall y (List.mem_cons_of_mem x hy)) r hr

theorem loopRun_hook_imp_pass (h : Bool) (inputs : List IterInput) :
    ∀ w : Bool, ∀ r ∈ (loopRun h w inputs).1,
      r.hookInvoked = true → r.passTriggered = true := by
  induction inputs with
  | nil => intro w r hr; simp [loopRun] at hr
  | cons x xs ih =>
    intro w r hr hk
    by_cases ht : x.term = true
    · simp [loopRun, ht] at hr
    · have ht' : x.term = false := by simpa using ht
      by_cases hf : (checkStep h w x).fatal = true
      · simp [loopRun, ht', hf] at hr
        subst hr
        exact checkStep_hook_imp_pass h w x hk
      · have hf' : (checkStep h w x).fatal = false := by simpa using hf
        simp [loopRun, ht', hf'] at hr
        rcases hr with rfl | hr
        · exact checkStep_hook_imp_pass h w x hk
        · exact ih (checkStep h w x).was_up r hr hk

theorem passFlags_length (ps : List Bool) :
    ∀ w : Bool, (passFlags w ps).length = ps.length := by
  induction ps with
  | nil => intro w; simp [passFlags]
  | cons p ps ih => intro w; simp [passFlags, ih p]

theorem passFlags_getD (ps : List Bool) :
    ∀ (w : Bool) (i : Nat), i < ps.length →
      ((passFlags w ps).getD i false = true ↔
        (ps.getD i false = true ∧
          (if i = 0 then w = false else ps.getD (i - 1) false = false))) := by
  induction ps with
  | nil => intro w i hi; simp at hi
  | cons p ps ih =>
    intro w i hi
    cases i with
    | zero =>
      simp only [passFlags, List.getD_cons_zero, if_pos rfl]
      cases p <;> cases w <;> simp
    | succ j =>
      have hj : j < ps.length := by simpa using hi
      have h2 := ih p j hj
      cases j with
      | zero => simpa [passFlags] using h2
      | succ k => simpa [passFlags] using h2

/-- C1 counterexample: a pass over a single share whose local mount path
already exists is NOT successful.  The share is skipped (its only outcome is
the already-mounted error, not a mount failure), yet `remount_shares` collects
that error and fails the whole pass, so the claim that a skipped share counts
as non-failure for the overall pass is false on the code. -/
theorem c1_skip_fails_pass_counterexample :
    remount envExisting = Except.error RemountError.shareExists ∧
    remountErrors [envExisting] = [RemountError.shareExists] ∧
    remount_shares [envExisting] ≠ Except.ok () := by
  refine ⟨rfl, rfl, ?_⟩
  intro hcon
  exact absurd ((remount_shares_ok_iff [envExisting]).mp hcon) (by decide)

/-- C1 (amended): a remount pass is Successful exactly when every share's
`remount` returned Ok; the skipped-already-mounted outcome is collected as an
error like any other, so a skip fails the overall pass (and thereby gates the
post-mount hook) exactly as a true mount failure does. -/
theorem c1_pass_success_iff_all_ok (shares : List ShareEnv) :
    remount_shares shares = Except.ok () ↔
      ∀ s ∈ shares, remount s = Except.ok () :=
  (remount_shares_ok_iff shares).trans (remountErrors_eq_nil shares)

/-- C5: `remount_shares` attempts `remount` on every share with no
short-circuit and no rollback: the per-share outcome sequence has one entry
per input share, every individual failure appears in the reported error list,
appending further shares after a failing prefix still collects the later
outcomes, and the pass succeeds exactly when the collected error list is
empty. -/
theorem c5_all_shares_attempted (shares extra : List ShareEnv) :
    (shares.map remount).length = shares.length ∧
    (∀ s ∈ shares, ∀ e, remount s = Except.error e → e ∈ remountErrors shares) ∧
    remountErrors (shares ++ extra) = remountErrors shares ++ remountErrors extra ∧
    (remount_shares shares = Except.ok () ↔ remountErrors shares = []) := by
  refine ⟨List.length_map shares remount, ?_, ?_, remount_shares_ok_iff shares⟩
  · intro s hs e hR
    exact List.mem_filterMap.mpr ⟨s, hs, by simp [errOf, hR]⟩
  · exact List.filterMap_append shares extra _

/-- C6: a share whose local mount path already exists never causes an external
mount invocation: `remount` returns the already-mounted error before the mount
command is built or spawned. -/
theorem c6_existing_path_no_mount (e : ShareEnv) (hex : e.pathExists = true) :
    mountInvoked e = false ∧ remount e = Except.error RemountError.shareExists := by
  unfold mountInvoked remount remountRun
  simp [hex]

/-- C6 witness: the concrete already-existing share. -/
theorem c6_witness :
    mountInvoked envExisting = false ∧
      remount envExisting = Except.error RemountError.shareExists :=
  c6_existing_path_no_mount envExisting (by decide)

/-- C2: on a Down-to-Up edge whose remount pass fails, `was_up` is still
advanced to Up, a pass was triggered, and the hook is skipped; on every
subsequent poll in which connectivity stays Up no new pass is attempted, so a
failed pass is retried only once `was_up` has been re-latched to Down by a
Down poll and an Up probe arrives again (from `was_up = false` an Up probe
always triggers a pass). -/
theorem c2_failed_pass_latches_up (h : Bool) (inp : IterInput)
    (hup : inp.isUp = true) (hfail : remount_shares inp.shares ≠ Except.ok ())
    (inputs : List IterInput) (hall : ∀ x ∈ inputs, x.isUp = true) :
    (checkStep h false inp).was_up = true ∧
    (checkStep h false inp).passTriggered = true ∧
    (checkStep h false inp).hookInvoked = false ∧
    (checkStep false false iterDown).was_up = false ∧
    (∀ r ∈ (loopRun h true inputs).1, r.passTriggered = false) := by
  refine ⟨?_, ?_, ?_, by simp [checkStep, iterDown], loopRun_up_noPass h inputs hall⟩
  · rw [checkStep_was_up, hup]
  · rw [checkStep_passTriggered, hup]; rfl
  · cases hk : (checkStep h false inp).hookInvoked
    · rfl
    · exact absurd ((checkStep_hookInvoked_iff h false inp).mp hk).2.1 hfail

/-- C2 witness: a failing pass on an Up edge followed by a stable-Up poll. -/
theorem c2_witness :
    (checkStep true false iterUpFail).was_up = true ∧
    (checkStep true false iterUpFail).hookInvoked = false ∧
    ((loopRun true true [iterUpOk]).1.getD 0 stepDefault).passTriggered = false :=
  ⟨(c2_failed_pass_latches_up true iterUpFail (by decide) (by decide)
      [iterUpOk] (by decide)).1,
   (c2_failed_pass_latches_up true iterUpFail (by decide) (by decide)
      [iterUpOk] (by decide)).2.2.1,
   (c2_failed_pass_latches_up true iterUpFail (by decide) (by decide)
      [iterUpOk] (by decide)).2.2.2.2 _ (by decide)⟩

/-- C3: starting from the initial Down state, the trace of pass-trigger flags
of `check_connection` equals `passFlags false` of the probe sequence, and the
pass flag at index `i` is set exactly when probe `i` is Up and either `i` is
the initial poll or probe `i - 1` was Down: a pass is triggered iff the probe
sequence contains a Down-to-Up (or initial-to-Up) edge there, never on a
stable Up run nor on an Up-to-Down or Down-to-Down transition. -/
theorem c3_pass_iff_down_up_edge (h : Bool) (inputs : List IterInput)
    (hterm : ∀ x ∈ inputs, x.term = false)
    (hspawn : ∀ x ∈ inputs, x.hookSpawnOk = true) :
    (check_connection h inputs).1.map StepResult.passTriggered =
      passFlags false (inputs.map IterInput.isUp) ∧
    ∀ i : Nat, i < inputs.length →
      ((passFlags false (inputs.map IterInput.isUp)).getD i false = true ↔
        ((inputs.map IterInput.isUp).getD i false = true ∧
          (i = 0 ∨ (inputs.map IterInput.isUp).getD (i - 1) false = false))) := by
  constructor
  · exact loopRun_passMap h inputs false hterm hspawn
  · intro i hi
    have hchar := passFlags_getD (inputs.map IterInput.isUp) false i (by simpa using hi)
    rcases Nat.eq_zero_or_pos i with rfl | hpos
    · simpa using hchar
    · have hne : i ≠ 0 := Nat.pos_iff_ne_zero.mp hpos
      simp only [if_neg hne] at hchar
      constructor
      · intro hx
        obtain ⟨hA, hB⟩ := hchar.mp hx
        exact ⟨hA, Or.inr hB⟩
      · rintro ⟨hA, hz | hB⟩
        · exact absurd hz hne
        · exact hchar.mpr ⟨hA, hB⟩

/-- C3 witness: the probe sequence Down, Up, Up triggers exactly one pass, at
the Down-to-Up edge. -/
theorem c3_witness :
    (check_connection true [iterDown, iterUpOk, iterUpOk]).1.map
        StepResult.passTriggered =
      passFlags false ([iterDown, iterUpOk, iterUpOk].map IterInput.isUp) ∧
    ((passFlags false ([iterDown, iterUpOk, iterUpOk].map IterInput.isUp)).getD
        1 false = true ↔
      (([iterDown, iterUpOk, iterUpOk].map IterInput.isUp).getD 1 false = true ∧
        (1 = 0 ∨ ([iterDown, iterUpOk, iterUpOk].map IterInput.isUp).getD
          0 false = false))) :=
  ⟨(c3_pass_iff_down_up_edge true [iterDown, iterUpOk, iterUpOk]
      (by decide) (by decide)).1,
   (c3_pass_iff_down_up_edge true [iterDown, iterUpOk, iterUpOk]
      (by decide) (by decide)).2 1 (by decide)⟩

/-- C4: the post-mount hook is invoked on a loop iteration exactly when that
iteration triggered a remount pass, the pass was fully successful, and a hook
command was configured; and on every further iteration of a stable Up run no
hook is invoked, so the hook runs at most once per Up-edge. -/
theorem c4_hook_iff_success_and_configured (h w : Bool) (inp : IterInput)
    (inputs : List IterInput) (hall : ∀ x ∈ inputs, x.isUp = true) :
    ((checkStep h w inp).hookInvoked = true ↔
      (checkStep h w inp).passTriggered = true ∧
        remount_shares inp.shares = Except.ok () ∧ h = true) ∧
    (∀ r ∈ (loopRun h true inputs).1, r.hookInvoked = false) := by
  refine ⟨checkStep_hookInvoked_iff h w inp, ?_⟩
  intro r hr
  cases hk : r.hookInvoked
  · rfl
  · have hp := loopRun_hook_imp_pass h inputs true r hr hk
    have hnp := loopRun_up_noPass h inputs hall r hr
    rw [hnp] at hp
    exact absurd hp (by simp)

/-- C4 witness: a successful pass with a configured hook invokes the hook on
the edge iteration, and the following stable-Up iteration invokes none. -/
theorem c4_witness :
    (checkStep true false iterUpOk).hookInvoked = true ∧
    ((loopRun true true [iterUpOk]).1.getD 0 stepDefault).hookInvoked = false :=
  ⟨((c4_hook_iff_success_and_configured true false iterUpOk [iterUpOk]
      (by decide)).1).mpr (by decide),
   (c4_hook_iff_success_and_configured true false iterUpOk [iterUpOk]
      (by decide)).2 _ (by decide)⟩

/-- C7: `new_remounter` fails exactly when resolving `"{server}:445"` either
errors or yields no address at all; on success the stored endpoint is exactly
the first resolved address (the remaining candidates are discarded by the
construction); and a construction failure makes `main` exit with status 1
before any poll iteration runs. -/
theorem c7_resolution_first_address (resolve : String → Except Unit (List Addr))
    (server : String) (shares : List String) (script : Option String)
    (inputs : List IterInput) :
    (new_remounter resolve server shares script = Except.error () ↔
      (resolve (server ++ ":" ++ toString service_port) = Except.error () ∨
       resolve (server ++ ":" ++ toString service_port) = Except.ok [])) ∧
    (∀ (a : Addr) (rest : List Addr),
      resolve (server ++ ":" ++ toString service_port) = Except.ok (a :: rest) →
      new_remounter resolve server shares script =
        Except.ok { server := server, socket_address := a, smb_shares := shares,
                    post_mount_script := script }) ∧
    (new_remounter resolve server shares script = Except.error () →
      mainModel resolve server shares script inputs =
        { exitCode := some 1, probes := 0 }) := by
  refine ⟨?_, ?_, ?_⟩
  · rcases hx : resolve (server ++ ":" ++ toString service_port) with u | l
    · cases u
      simp [new_remounter, hx]
    · rcases l with _ | ⟨a, rest⟩ <;> simp [new_remounter, hx]
  · intro a rest hx
    simp [new_remounter, hx]
  · intro hfailed
    simp [mainModel, hfailed]

/-- C7 witness: a failing resolver aborts with exit 1 and zero polls; a
resolver with two candidates stores exactly the first. -/
theorem c7_witness :
    (new_remounter resolveFail "server" ["/mnt/a"] none = Except.error () ↔
      (resolveFail ("server" ++ ":" ++ toString service_port) = Except.error () ∨
       resolveFail ("server" ++ ":" ++ toString service_port) = Except.ok [])) ∧
    new_remounter resolveTwo "server" ["/mnt/a"] none =
      Except.ok { server := "server", socket_address := { ip := 1, port := 445 },
                  smb_shares := ["/mnt/a"], post_mount_script := none } ∧
    mainModel resolveFail "server" ["/mnt/a"] none [iterUpOk] =
      { exitCode := some 1, probes := 0 } :=
  ⟨(c7_resolution_first_address resolveFail "server" ["/mnt/a"] none [iterUpOk]).1,
   (c7_resolution_first_address resolveTwo "server" ["/mnt/a"] none [iterUpOk]).2.1
      { ip := 1, port := 445 } [{ ip := 2, port := 445 }] rfl,
   (c7_resolution_first_address resolveFail "server" ["/mnt/a"] none [iterUpOk]).2.2
      rfl⟩

/-- C8: the shutdown flag is checked at the top of every loop iteration: for
any run whose earlier iterations saw the flag false (and spawned their hooks,
so no error propagated), the iteration that observes the flag true performs no
probe and no remount pass, the loop exits, and the process reports normal
termination with exit status 0 — the trace stops exactly at the iterations
before the flag was observed. -/
theorem c8_shutdown_checked_each_iteration (h : Bool) (t : IterInput)
    (post : List IterInput) (ht : t.term = true) :
    ∀ (pre : List IterInput) (w : Bool),
      (∀ x ∈ pre, x.term = false) → (∀ x ∈ pre, x.hookSpawnOk = true) →
      ((loopRun h w (pre ++ t :: post)).2 = LoopExit.normal ∧
       (loopRun h w (pre ++ t :: post)).1.length = pre.length ∧
       exitCodeOf (loopRun h w (pre ++ t :: post)).2 = some 0) := by
  intro pre
  induction pre with
  | nil =>
    intro w _ _
    refine ⟨?_, ?_, ?_⟩ <;> simp [loopRun, ht, exitCodeOf]
  | cons x pre ih =>
    intro w hterm hspawn
    have hx : x.term = false := hterm x (List.mem_cons_self x pre)
    have hsx : x.hookSpawnOk = true := hspawn x (List.mem_cons_self x pre)
    have hfatal := checkStep_fatal_of_spawnOk h w x hsx
    have hrec := ih (checkStep h w x).was_up
      (fun y hy => hterm y (List.mem_cons_of_mem x hy))
      (fun y hy => hspawn y (List.mem_cons_of_mem x hy))
    refine ⟨?_, ?_, ?_⟩ <;>
      simp [loopRun, hx, hfatal, hrec.1, hrec.2.1, exitCodeOf]

/-- C8 witness: one quiet Down poll, then the flag reads true: the loop exits
normally with exit code 0 having polled exactly once. -/
theorem c8_witness :
    (loopRun true false ([iterDown] ++ iterTerm :: [iterUpOk])).2 =
      LoopExit.normal ∧
    (loopRun true false ([iterDown] ++ iterTerm :: [iterUpOk])).1.length =
      [iterDown].length ∧
    exitCodeOf (loopRun true false ([iterDown] ++ iterTerm :: [iterUpOk])).2 =
      some 0 :=
  c8_shutdown_checked_each_iteration true iterTerm [iterUpOk] (by decide)
    [iterDown] false (by decide) (by decide)

/-- C9: when the configured post-mount hook spawns and exits with a non-zero
status, the hook is still counted as invoked, no fatal error propagates, the
step result does not depend on the hook's exit status at all, and the loop
goes on to process the subsequent iterations (polling continues). -/
theorem c9_hook_nonzero_exit_absorbed (inp : IterInput) (rest : List IterInput)
    (hterm : inp.term = false) (hup : inp.isUp = true)
    (hok : remount_shares inp.shares = Except.ok ())
    (hspawn : inp.hookSpawnOk = true) :
    (checkStep true false inp).hookInvoked = true ∧
    (checkStep true false inp).fatal = false ∧
    (∀ b : Bool,
      checkStep true false { inp with hookExitOk := b } = checkStep true false inp) ∧
    loopRun true false (inp :: rest) =
      (checkStep true false inp :: (loopRun true true rest).1,
       (loopRun true true rest).2) := by
  have hstep : checkStep true false inp =
      { was_up := true, passTriggered := true, passSucceeded := true,
        hookInvoked := true, fatal := false } := by
    simp [checkStep, hup, hok, hspawn]
  refine ⟨by simp [hstep], by simp [hstep], ?_, ?_⟩
  · intro b
    simp [checkStep, hup, hok]
  · simp [loopRun, hterm, hstep]

/-- C9 witness: an Up edge with a successful pass whose hook exits non-zero. -/
theorem c9_witness :
    (checkStep true false iterUpHookExitBad).hookInvoked = true ∧
    (checkStep true false iterUpHookExitBad).fatal = false ∧
    checkStep true false { iterUpHookExitBad with hookExitOk := true } =
      checkStep true false iterUpHookExitBad :=
  ⟨(c9_hook_nonzero_exit_absorbed iterUpHookExitBad [iterDown] (by decide)
      (by decide) (by decide) (by decide)).1,
   (c9_hook_nonzero_exit_absorbed iterUpHookExitBad [iterDown] (by decide)
      (by decide) (by decide) (by decide)).2.1,
   (c9_hook_nonzero_exit_absorbed iterUpHookExitBad [iterDown] (by decide)
      (by decide) (by decide) (by decide)).2.2.1 true⟩

/-- C10: when the post-mount hook's shell cannot be spawned at all on an
Up-edge whose pass succeeded, the step is fatal, the loop stops there with the
error propagating out of `check_connection`, and the modelled process exits
with status 1 after that single poll — unlike a non-zero hook exit, which is
absorbed. -/
theorem c10_hook_spawn_failure_fatal (inp : IterInput) (rest : List IterInput)
    (hterm : inp.term = false) (hup : inp.isUp = true)
    (hok : remount_shares inp.shares = Except.ok ())
    (hspawn : inp.hookSpawnOk = false) :
    (checkStep true false inp).fatal = true ∧
    loopRun true false (inp :: rest) =
      ([checkStep true false inp], LoopExit.fatalError) ∧
    exitCodeOf (loopRun true false (inp :: rest)).2 = some 1 ∧
    (∀ (resolve : String → Except Unit (List Addr)) (server : String)
        (shs : List String) (a : Addr) (more : List Addr) (script : String),
      resolve (server ++ ":" ++ toString service_port) = Except.ok (a :: more) →
      mainModel resolve server shs (some script) (inp :: rest) =
        { exitCode := some 1, probes := 1 }) := by
  have hstep : checkStep true false inp =
      { was_up := true, passTriggered := true, passSucceeded := true,
        hookInvoked := true, fatal := true } := by
    simp [checkStep, hup, hok, hspawn]
  have hloop : loopRun true false (inp :: rest) =
      ([checkStep true false inp], LoopExit.fatalError) := by
    simp [loopRun, hterm, hstep]
  refine ⟨by simp [hstep], hloop, by simp [hloop, exitCodeOf], ?_⟩
  intro resolve server shs a more script hres
  simp [mainModel, new_remounter, hres, check_connection, hloop, exitCodeOf]

/-- C10 witness: a concrete run in which the hook cannot be spawned: the
process exits 1 after one poll. -/
theorem c10_witness :
    (checkStep true false iterUpSpawnFail).fatal = true ∧
    mainModel resolveTwo "server" ["/mnt/a"] (some "hook") (iterUpSpawnFail :: [iterDown]) =
      { exitCode := some 1, probes := 1 } :=
  ⟨(c10_hook_spawn_failure_fatal iterUpSpawnFail [iterDown] (by decide)
      (by decide) (by decide) (by decide)).1,
   (c10_hook_spawn_failure_fatal iterUpSpawnFail [iterDown] (by decide)
      (by decide) (by decide) (by decide)).2.2.2 resolveTwo "server" ["/mnt/a"]
      { ip := 1, port := 445 } [{ ip := 2, port := 445 }] "hook" rfl⟩

end Remount
